import Mathlib

/-!
Shallow embedding of the grading engine of `cli_grader` (Rust), covering:

* `Score`, `GradingMode` and their arithmetic (`src/cli_grader/src/grader/score.rs`);
* `Assertion`, `AssertionResult` and the assertion execution protocol
  (`src/cli_grader/src/grader/grading_tests/unit_test/assertion.rs`);
* the result-aggregation hierarchy `UnitTestResult`, `UnitTestsResult`,
  `GradingSectionResult`, `GradingResult`
  (`src/cli_grader/src/grader/grading_tests/unit_test.rs`, `src/cli_grader/src/grader.rs`).

Modelling conventions:

* Rust `u32` values are `Nat`s; `u32` addition and multiplication are taken
  modulo `2 ^ 32` (`U32MOD`), making wrap-around explicit.
* Rust `i32` exit statuses are `Int`s (only equality is used on them).
* a Rust operation that may `panic` (mode-mismatched score addition) returns
  `Option`, with `none` for the panic.
* process interaction is modelled by a `SpawnOutcome` input to the assertion
  protocol: spawn failure, wait failure, or completion with a captured
  `ProcessOutput`.
-/

namespace CliGrader

/-- Modulus of Rust u32 arithmetic. -/
def U32MOD : Nat := 2 ^ 32

/-- The way that the score will be calculated (`GradingMode` in score.rs). -/
inductive GradingMode
  | Absolute
  | Weighted
  deriving DecidableEq, Repr

/-- The actual score (`Score` in score.rs): `Absolute(bool)` or
`Weighted { current: u32, max: u32 }`. -/
inductive Score
  | absolute (b : Bool)
  | weighted (current max : Nat)
  deriving DecidableEq, Repr

namespace Score

/-- Creates a default version for `Score` which represents the 0 in the chosen
mode (`Score::default` in score.rs, lines 24-29). -/
def default (grading_mode : GradingMode) : Score :=
  match grading_mode with
  | .Absolute => .absolute false
  | .Weighted => .weighted 0 0

/-- Score addition (`impl AddAssign for Score`, score.rs lines 32-52; `impl Add`
in grader.rs is identical). Matching tags combine componentwise (logical AND for
`absolute`, u32 addition for `weighted`); mismatched tags panic in the source,
modelled as `none`. -/
def combine : Score → Score → Option Score
  | .absolute b1, .absolute b2 => some (.absolute (b1 && b2))
  | .weighted c1 m1, .weighted c2 m2 =>
      some (.weighted ((c1 + c2) % U32MOD) ((m1 + m2) % U32MOD))
  | _, _ => none

/-- Score scaling by an integer weight (`impl Mul<u32> for Score`, score.rs
lines 54-66): multiplies both components of `weighted`, passthrough for
`absolute`. -/
def scale : Score → Nat → Score
  | .weighted c m, rhs => .weighted ((c * rhs) % U32MOD) ((m * rhs) % U32MOD)
  | .absolute b, _ => .absolute b

/-- Whether a score carries the `Absolute` tag. -/
def isAbsolute : Score → Bool
  | .absolute _ => true
  | .weighted _ _ => false

/-- Whether two scores carry the same tag (precondition for combining). -/
def sameMode : Score → Score → Bool
  | .absolute _, .absolute _ => true
  | .weighted _ _, .weighted _ _ => true
  | _, _ => false

/-- Well-formedness of a score as a Rust value: weighted components are u32
values, hence below `2 ^ 32`. -/
def wf : Score → Prop
  | .absolute _ => True
  | .weighted c m => c < U32MOD ∧ m < U32MOD

/-- Folding `combine` over a list of scores from an initial score, in order;
`none` as soon as one combination panics. -/
def combineAll (init : Score) (l : List Score) : Option Score :=
  l.foldlM combine init

end Score

/-- Diagnostic pair for one asserted field (`ExpectedObtainedResult<T>` in
assertion.rs lines 23-27). -/
structure ExpectedObtainedResult (T : Type) where
  expected : T
  obtained : Option T
  deriving DecidableEq, Repr

/-- Terminal classification of one assertion execution (`ExecutionStatus` in
assertion.rs lines 29-37). -/
inductive ExecutionStatus
  | Success
  | FailureWithStatus (code : Int)
  | FailureBeforeExecution
  | FailureBeforeWait
  | FailureWithSignalTermination
  | Undefined
  deriving DecidableEq, Repr

/-- Result of running one assertion (`AssertionResult` in assertion.rs
lines 39-48). -/
structure AssertionResult where
  execution_status : ExecutionStatus
  name : String
  passed : Bool
  weight : Nat
  stdout_diagnostics : Option (ExpectedObtainedResult String)
  stderr_diagnostics : Option (ExpectedObtainedResult String)
  status_diagnostics : Option (ExpectedObtainedResult Int)
  deriving DecidableEq, Repr

namespace AssertionResult

/-- Initial assertion result (`AssertionResult::new`, assertion.rs lines
51-61): not passed, `Undefined` execution status, no diagnostics. -/
def new (name : String) (weight : Nat) : AssertionResult :=
  { name := name
    passed := false
    execution_status := .Undefined
    stdout_diagnostics := none
    stderr_diagnostics := none
    status_diagnostics := none
    weight := weight }

/-- lines 63-68 of assertion.rs: the weight if passed, else 0. -/
def score (r : AssertionResult) : Nat :=
  if r.passed then r.weight else 0

/-- lines 69-71 of assertion.rs: the weight. -/
def max_score (r : AssertionResult) : Nat :=
  r.weight

def set_passed (r : AssertionResult) (v : Bool) : AssertionResult :=
  { r with passed := v }

def set_execution_status (r : AssertionResult) (status : ExecutionStatus) :
    AssertionResult :=
  { r with execution_status := status }

def set_stdout_diagnostics (r : AssertionResult) (expected : String)
    (obtained : Option String) : AssertionResult :=
  { r with stdout_diagnostics := some ⟨expected, obtained⟩ }

def set_stderr_diagnostics (r : AssertionResult) (expected : String)
    (obtained : Option String) : AssertionResult :=
  { r with stderr_diagnostics := some ⟨expected, obtained⟩ }

def set_status_diagnostics (r : AssertionResult) (expected : Int)
    (obtained : Option Int) : AssertionResult :=
  { r with status_diagnostics := some ⟨expected, obtained⟩ }

end AssertionResult

/-- A single expected-behaviour check (`Assertion` in assertion.rs lines 9-21). -/
structure Assertion where
  name : String
  args : List String
  stdin : Option String
  stdout : Option String
  stderr : Option String
  status : Option Int
  weight : Nat
  deriving DecidableEq, Repr

/-- Exit of a completed child process (models `std::process::ExitStatus`):
either exited with a code, or was terminated by a signal so that `code()` is
`None`. `success()` in the source holds exactly when the code is 0. -/
inductive ExitKind
  | exited (code : Int)
  | signaled
  deriving DecidableEq, Repr

/-- Captured output of a completed child process (models
`std::process::Output`, as produced by `wait_with_output`). The stdout and
stderr byte buffers are modelled as strings; the source compares them
byte-for-byte against the expected strings. -/
structure ProcessOutput where
  status : ExitKind
  stdout : String
  stderr : String
  deriving DecidableEq, Repr

/-- Behaviour of the environment for one assertion run: `cmd.spawn()` may fail,
`child.wait_with_output()` may fail, or the process completes with an output.
This is the input that resolves the two fallible calls inside
`Assertion::unsafe_assert_cmd`. -/
inductive SpawnOutcome
  | spawnFailure
  | waitFailure
  | completed (output : ProcessOutput)
  deriving DecidableEq, Repr

namespace Assertion

/-- Constructor used by the configuration layer (`Assertion::build`,
assertion.rs lines 118-143): fails when stdout, stderr and status are all
absent, otherwise yields an assertion with exactly the given fields. -/
def build (name : String) (args : List String) (stdin : Option String)
    (stdout : Option String) (stderr : Option String) (status : Option Int)
    (weight : Nat) : Except String Assertion :=
  if stdout.isNone && stderr.isNone && status.isNone then
    .error "at least one expect field must be non-null (stdout, stderr, or status)"
  else
    .ok { name := name, args := args, stdin := stdin, stdout := stdout
          stderr := stderr, status := status, weight := weight }

/-- assertion.rs lines 168-178: for every asserted field, record a diagnostic
with `obtained = None` (used when the process failed before producing output). -/
def assert_stdout_stderr_status_against_null (a : Assertion)
    (assertion_result : AssertionResult) : AssertionResult :=
  let r := match a.stdout with
    | some expected_stdout => assertion_result.set_stdout_diagnostics expected_stdout none
    | none => assertion_result
  let r := match a.stderr with
    | some expected_stderr => r.set_stderr_diagnostics expected_stderr none
    | none => r
  match a.status with
  | some expected_status => r.set_status_diagnostics expected_status none
  | none => r

/-- Status-classification block of `unsafe_assert_cmd` (assertion.rs lines
237-277), threading the accumulated result and the `passed` flag. On a
successful exit a non-zero expectation records `(expected, Some(0))`; on a
reported non-zero code a differing expectation records the obtained code; on
signal termination any expectation records `obtained = None`. -/
def check_status (a : Assertion) (st : ExitKind)
    (acc : AssertionResult × Bool) : AssertionResult × Bool :=
  let (assertion_result, passed) := acc
  if st = .exited 0 then
    let (assertion_result, passed) :=
      match a.status with
      | some expected_status =>
          if expected_status ≠ 0 then
            (assertion_result.set_status_diagnostics expected_status (some 0), false)
          else
            (assertion_result, passed)
      | none => (assertion_result, passed)
    (assertion_result.set_execution_status .Success, passed)
  else
    match st with
    | .exited obtained_status =>
        let (assertion_result, passed) :=
          match a.status with
          | some expected_status =>
              if expected_status ≠ obtained_status then
                (assertion_result.set_status_diagnostics expected_status
                  (some obtained_status), false)
              else
                (assertion_result, passed)
          | none => (assertion_result, passed)
        (assertion_result.set_execution_status (.FailureWithStatus obtained_status),
          passed)
    | .signaled =>
        let (assertion_result, passed) :=
          match a.status with
          | some expected_status =>
              (assertion_result.set_status_diagnostics expected_status none, false)
          | none => (assertion_result, passed)
        (assertion_result.set_execution_status .FailureWithSignalTermination,
          passed)

/-- Stdout-comparison block of `unsafe_assert_cmd` (assertion.rs lines
279-296): exact comparison when stdout is asserted, recording a diagnostic on
mismatch. -/
def check_stdout (a : Assertion) (output : ProcessOutput)
    (acc : AssertionResult × Bool) : AssertionResult × Bool :=
  let (assertion_result, passed) := acc
  match a.stdout with
  | some expected_stdout =>
      if output.stdout ≠ expected_stdout then
        (assertion_result.set_stdout_diagnostics expected_stdout
          (some output.stdout), false)
      else
        (assertion_result, passed)
  | none => (assertion_result, passed)

/-- Stderr-comparison block of `unsafe_assert_cmd` (assertion.rs lines
297-314). -/
def check_stderr (a : Assertion) (output : ProcessOutput)
    (acc : AssertionResult × Bool) : AssertionResult × Bool :=
  let (assertion_result, passed) := acc
  match a.stderr with
  | some expected_stderr =>
      if output.stderr ≠ expected_stderr then
        (assertion_result.set_stderr_diagnostics expected_stderr
          (some output.stderr), false)
      else
        (assertion_result, passed)
  | none => (assertion_result, passed)

/-- The assertion execution protocol (`Assertion::unsafe_assert_cmd`,
assertion.rs lines 180-324), with the environment behaviour passed in as
`proc`. Spawn failure yields `FailureBeforeExecution` and wait failure yields
`FailureBeforeWait`, both with null diagnostics for every asserted field; on
completion the status, stdout and stderr blocks run in source order and
`passed` is their conjunction, starting from `true`. -/
def unsafe_assert_cmd (a : Assertion) (proc : SpawnOutcome) : AssertionResult :=
  let assertion_result := AssertionResult.new a.name a.weight
  match proc with
  | .spawnFailure =>
      a.assert_stdout_stderr_status_against_null
        (assertion_result.set_execution_status .FailureBeforeExecution)
  | .waitFailure =>
      a.assert_stdout_stderr_status_against_null
        (assertion_result.set_execution_status .FailureBeforeWait)
  | .completed output =>
      let acc := check_status a output.status (assertion_result, true)
      let acc := check_stdout a output acc
      let (assertion_result, passed) := check_stderr a output acc
      assertion_result.set_passed passed

end Assertion

/-- Result of one unit test (`UnitTestResult` in unit_test.rs lines 113-119;
`ProgramUnitAssertionResults` in grader.rs is the same shape). -/
structure UnitTestResult where
  name : String
  executable_name : String
  score : Score
  assertion_results : List AssertionResult
  deriving DecidableEq, Repr

namespace UnitTestResult

/-- unit_test.rs lines 122-129: fresh result with the mode's default score. -/
def new (name : String) (executable_name : String) (grading_mode : GradingMode) :
    UnitTestResult :=
  { name := name
    executable_name := executable_name
    score := Score.default grading_mode
    assertion_results := [] }

/-- unit_test.rs lines 136-147 (`UnitTestResult::add_assertion_result`): fold
one assertion result's score into the running score — logical AND with
`score == max_score` in `Absolute`, componentwise u32 addition of `score` and
`max_score` in `Weighted` — and append the result in order. -/
def add_assertion_result (r : UnitTestResult) (assertion_result : AssertionResult) :
    UnitTestResult :=
  let score := match r.score with
    | .absolute b =>
        Score.absolute (b && (assertion_result.score == assertion_result.max_score))
    | .weighted c m =>
        .weighted ((c + assertion_result.score) % U32MOD)
          ((m + assertion_result.max_score) % U32MOD)
  { r with
    score := score
    assertion_results := r.assertion_results ++ [assertion_result] }

/-- The per-assertion loop of `UnitTest::run` (unit_test.rs lines 47-108)
restricted to result aggregation: each produced assertion result is folded in
declared order. -/
def add_assertion_results (r : UnitTestResult) (l : List AssertionResult) :
    UnitTestResult :=
  l.foldl add_assertion_result r

end UnitTestResult

/-- Aggregate result of a `UnitTests` group (`UnitTestsResult` in unit_test.rs
lines 218-222). -/
structure UnitTestsResult where
  score : Score
  assertions_per_executable_results : List UnitTestResult
  deriving DecidableEq, Repr

namespace UnitTestsResult

/-- unit_test.rs lines 225-230. -/
def new (grading_mode : GradingMode) : UnitTestsResult :=
  { score := Score.default grading_mode
    assertions_per_executable_results := [] }

/-- unit_test.rs lines 240-243 (`UnitTestsResult::add_result`): `self.score +=
result.score` (panics on mode mismatch, modelled by `none`), result appended in
order. -/
def add_result (r : UnitTestsResult) (result : UnitTestResult) :
    Option UnitTestsResult :=
  (r.score.combine result.score).map fun s =>
    { score := s
      assertions_per_executable_results :=
        r.assertions_per_executable_results ++ [result] }

/-- The per-unit-test loop of `UnitTests::run` (unit_test.rs lines 195-215)
restricted to result aggregation. -/
def add_results (r : UnitTestsResult) (l : List UnitTestResult) :
    Option UnitTestsResult :=
  l.foldlM add_result r

end UnitTestsResult

/-- Result of one grading section (`GradingSectionResult` in grader.rs lines
365-370; `GradingTestSectionResult` in the spec's naming). Its
`test_results` field holds the wrapped unit-tests result. -/
structure GradingSectionResult where
  name : String
  score : Score
  test_results : Option UnitTestsResult
  deriving DecidableEq, Repr

namespace GradingSectionResult

/-- grader.rs lines 373-379. -/
def new (name : String) (grading_mode : GradingMode) : GradingSectionResult :=
  { name := name
    score := Score.default grading_mode
    test_results := none }

/-- grader.rs lines 381-384 (`GradingSectionResult::set_test_results`):
`self.score = test_results.score() * weight` — the tests' aggregate score is
scaled, not combined, by the section weight. -/
def set_test_results (r : GradingSectionResult) (test_results : UnitTestsResult)
    (weight : Nat) : GradingSectionResult :=
  { r with
    score := test_results.score.scale weight
    test_results := some test_results }

end GradingSectionResult

/-- Overall grading result (`GradingResult` in grader.rs lines 420-426). -/
structure GradingResult where
  name : String
  author : String
  score : Score
  grading_section_results : List GradingSectionResult
  deriving DecidableEq, Repr

namespace GradingResult

/-- grader.rs lines 429-436. -/
def new (name : String) (author : String) (grading_mode : GradingMode) :
    GradingResult :=
  { name := name
    author := author
    score := Score.default grading_mode
    grading_section_results := [] }

/-- grader.rs lines 438-441 (`GradingResult::add_section_result`):
`self.score += grading_section_result.score` (combination, panics on mode
mismatch, modelled by `none`), section result appended in order. -/
def add_section_result (g : GradingResult)
    (grading_section_result : GradingSectionResult) : Option GradingResult :=
  (g.score.combine grading_section_result.score).map fun s =>
    { g with
      score := s
      grading_section_results :=
        g.grading_section_results ++ [grading_section_result] }

/-- The per-section loop of `GradingConfig::run_assessment` (grader.rs lines
409-417) restricted to result aggregation: sections contribute in declared
order. -/
def add_section_results (g : GradingResult) (l : List GradingSectionResult) :
    Option GradingResult :=
  l.foldlM add_section_result g

end GradingResult

/-- Whether an optional diagnostic pair, if present, has the obtained value
equal to `some` of the expected value. -/
def diagOk {T : Type} [DecidableEq T] : Option (ExpectedObtainedResult T) → Bool
  | none => true
  | some d => d.obtained == some d.expected

/-- Every diagnostic pair present in the result has `obtained == Some(expected)`. -/
def AssertionResult.diagnosticsAllMatch (r : AssertionResult) : Bool :=
  diagOk r.stdout_diagnostics && diagOk r.stderr_diagnostics &&
    diagOk r.status_diagnostics

/-- At least one of the stdout/stderr/status expectations is set (the
invariant `Assertion::build` enforces). -/
def Assertion.hasExpectation (a : Assertion) : Bool :=
  a.stdout.isSome || a.stderr.isSome || a.status.isSome

/-- C2 counterexample: `Score::default(Absolute) = Absolute(false)` is not an
identity of `combine` — combining it with `Absolute(true)` yields
`Absolute(false)`, not `Absolute(true)`. -/
theorem C2_counterexample_default_absolute_not_identity :
    Score.combine (Score.default .Absolute) (.absolute true) =
        some (.absolute false) ∧
      some (Score.absolute false) ≠ some (Score.absolute true) := by
  constructor
  · rfl
  · decide

/-- C2 (amended): `default(Weighted) = Weighted{0,0}` is a two-sided identity
of `combine` for Weighted scores with u32 components; `default(Absolute) =
Absolute(false)` is not an identity but an absorbing element: combining it
with any Absolute score yields `Absolute(false)` (it is an identity only at
`Absolute(false)` itself). -/
theorem C2_default_weighted_identity_absolute_absorbing
    (c m : Nat) (hc : c < U32MOD) (hm : m < U32MOD) (b : Bool) :
    Score.combine (Score.default .Weighted) (.weighted c m) =
        some (.weighted c m) ∧
      Score.combine (.weighted c m) (Score.default .Weighted) =
        some (.weighted c m) ∧
      Score.combine (Score.default .Absolute) (.absolute b) =
        some (.absolute false) := by
  refine ⟨?_, ?_, rfl⟩ <;>
    simp [Score.combine, Score.default, Nat.mod_eq_of_lt hc, Nat.mod_eq_of_lt hm]

/-- Witness for C2's amended theorem at `c = 3`, `m = 7`, `b = true`. -/
theorem C2_default_weighted_identity_absolute_absorbing_witness :
    Score.combine (Score.default .Weighted) (.weighted 3 7) =
        some (.weighted 3 7) ∧
      Score.combine (.weighted 3 7) (Score.default .Weighted) =
        some (.weighted 3 7) ∧
      Score.combine (Score.default .Absolute) (.absolute true) =
        some (.absolute false) :=
  C2_default_weighted_identity_absolute_absorbing 3 7 (by decide) (by decide) true

/-- C3: same-tagged scores combine componentwise — logical AND for Absolute,
componentwise u32 addition for Weighted (exact when the sums do not overflow)
— while differently-tagged scores, in either order, make `combine` fail fast
(the source panics; modelled as `none`) instead of coercing or returning a
value. -/
theorem C3_combine_componentwise_and_mismatch_fails
    (b1 b2 : Bool) (c1 m1 c2 m2 : Nat)
    (hc : c1 + c2 < U32MOD) (hm : m1 + m2 < U32MOD) :
    Score.combine (.absolute b1) (.absolute b2) = some (.absolute (b1 && b2)) ∧
      Score.combine (.weighted c1 m1) (.weighted c2 m2) =
        some (.weighted (c1 + c2) (m1 + m2)) ∧
      Score.combine (.absolute b1) (.weighted c2 m2) = none ∧
      Score.combine (.weighted c1 m1) (.absolute b2) = none := by
  refine ⟨rfl, ?_, rfl, rfl⟩
  simp [Score.combine, Nat.mod_eq_of_lt hc, Nat.mod_eq_of_lt hm]

/-- Witness for C3 at `b1 = true`, `b2 = false`, `Weighted{1,2}`,
`Weighted{3,4}`. -/
theorem C3_combine_componentwise_and_mismatch_fails_witness :
    Score.combine (.absolute true) (.absolute false) =
        some (.absolute (true && false)) ∧
      Score.combine (.weighted 1 2) (.weighted 3 4) =
        some (.weighted (1 + 3) (2 + 4)) ∧
      Score.combine (.absolute true) (.weighted 3 4) = none ∧
      Score.combine (.weighted 1 2) (.absolute false) = none :=
  C3_combine_componentwise_and_mismatch_fails true false 1 2 3 4
    (by decide) (by decide)

/-- C9: `Assertion::build` returns an error exactly when stdout, stderr and
status are all absent; otherwise it succeeds with an Assertion carrying
exactly the given fields. -/
theorem C9_build_requires_some_expectation
    (name : String) (args : List String) (stdin : Option String)
    (stdout : Option String) (stderr : Option String) (status : Option Int)
    (weight : Nat) :
    Assertion.build name args stdin stdout stderr status weight =
      if stdout = none ∧ stderr = none ∧ status = none then
        .error "at least one expect field must be non-null (stdout, stderr, or status)"
      else
        .ok { name := name, args := args, stdin := stdin, stdout := stdout
              stderr := stderr, status := status, weight := weight } := by
  rcases stdout with _ | vout <;> rcases stderr with _ | verr <;>
    rcases status with _ | vst <;> simp [Assertion.build]

/-- C10: within one mode, score combination is associative (up to the
sequencing of the fallible operation) and commutative, so aggregate totals do
not depend on combination order; u32 components are added modulo `2 ^ 32`. -/
theorem C10_combine_assoc_comm_same_mode (a b c : Score)
    (hab : Score.sameMode a b = true) (hbc : Score.sameMode b c = true) :
    ((Score.combine a b).bind fun x => Score.combine x c) =
        ((Score.combine b c).bind fun y => Score.combine a y) ∧
      Score.combine a b = Score.combine b a := by
  cases a <;> cases b <;> cases c <;>
    simp_all [Score.sameMode, Score.combine, U32MOD]
  case absolute b1 b2 b3 =>
    constructor
    · cases b1 <;> cases b2 <;> cases b3 <;> rfl
    · cases b1 <;> cases b2 <;> rfl
  case weighted c1 m1 c2 m2 c3 m3 =>
    refine ⟨⟨?_, ?_⟩, ?_, ?_⟩ <;> omega

/-- C4: for every assertion with at least one expectation set, the result of
the execution protocol passes exactly when every diagnostic pair present in it
has `obtained == Some(expected)`; equivalently, any present diagnostic with
`obtained != Some(expected)` (including `None`) forces `passed == false`. -/
theorem C4_passed_iff_diagnostics_match (a : Assertion) (proc : SpawnOutcome)
    (h : a.hasExpectation = true) :
    ((a.unsafe_assert_cmd proc).passed = true) ↔
      ((a.unsafe_assert_cmd proc).diagnosticsAllMatch = true) := by
  obtain ⟨n, args, sdin, so, se, st, w⟩ := a
  simp only [Assertion.hasExpectation, Bool.or_eq_true] at h
  cases proc with
  | spawnFailure =>
      rcases so with _ | vo <;> rcases se with _ | ve <;> rcases st with _ | vs <;>
        simp_all [Assertion.unsafe_assert_cmd,
          Assertion.assert_stdout_stderr_status_against_null,
          AssertionResult.new, AssertionResult.set_execution_status,
          AssertionResult.set_stdout_diagnostics, AssertionResult.set_stderr_diagnostics,
          AssertionResult.set_status_diagnostics, AssertionResult.diagnosticsAllMatch,
          diagOk]
  | waitFailure =>
      rcases so with _ | vo <;> rcases se with _ | ve <;> rcases st with _ | vs <;>
        simp_all [Assertion.unsafe_assert_cmd,
          Assertion.assert_stdout_stderr_status_against_null,
          AssertionResult.new, AssertionResult.set_execution_status,
          AssertionResult.set_stdout_diagnostics, AssertionResult.set_stderr_diagnostics,
          AssertionResult.set_status_diagnostics, AssertionResult.diagnosticsAllMatch,
          diagOk]
  | completed output =>
      obtain ⟨ek, pout, perr⟩ := output
      rcases st with _ | es <;> rcases so with _ | vo <;> rcases se with _ | ve <;>
        rcases ek with c | _ <;>
        simp_all [Assertion.unsafe_assert_cmd, Assertion.check_status,
          Assertion.check_stdout, Assertion.check_stderr,
          AssertionResult.new, AssertionResult.set_execution_status,
          AssertionResult.set_stdout_diagnostics, AssertionResult.set_stderr_diagnostics,
          AssertionResult.set_status_diagnostics, AssertionResult.set_passed,
          AssertionResult.diagnosticsAllMatch, diagOk] <;>
        split_ifs <;> simp_all <;> omega

/-- Witness for C4: an assertion expecting stdout "hello" and status 0 against
a process that printed "hello" and exited 0. -/
theorem C4_passed_iff_diagnostics_match_witness :
    (((Assertion.mk "a" [] none (some "hello") none (some 0) 1).unsafe_assert_cmd
          (.completed ⟨.exited 0, "hello", ""⟩)).passed = true) ↔
      (((Assertion.mk "a" [] none (some "hello") none (some 0) 1).unsafe_assert_cmd
          (.completed ⟨.exited 0, "hello", ""⟩)).diagnosticsAllMatch = true) :=
  C4_passed_iff_diagnostics_match (Assertion.mk "a" [] none (some "hello") none
    (some 0) 1) (.completed ⟨.exited 0, "hello", ""⟩) rfl

/-- C5: when the target process fails to spawn, the assertion result has
execution status `FailureBeforeExecution`, is not passed (hence scores 0),
every asserted field carries a diagnostic with `obtained = None`, and every
field not asserted carries no diagnostic. -/
theorem C5_spawn_failure_null_diagnostics (a : Assertion) :
    (a.unsafe_assert_cmd .spawnFailure).execution_status = .FailureBeforeExecution ∧
      (a.unsafe_assert_cmd .spawnFailure).passed = false ∧
      (a.unsafe_assert_cmd .spawnFailure).score = 0 ∧
      (a.unsafe_assert_cmd .spawnFailure).max_score = a.weight ∧
      (a.unsafe_assert_cmd .spawnFailure).stdout_diagnostics =
        a.stdout.map (fun e => ⟨e, none⟩) ∧
      (a.unsafe_assert_cmd .spawnFailure).stderr_diagnostics =
        a.stderr.map (fun e => ⟨e, none⟩) ∧
      (a.unsafe_assert_cmd .spawnFailure).status_diagnostics =
        a.status.map (fun e => ⟨e, none⟩) := by
  obtain ⟨n, args, sdin, so, se, st, w⟩ := a
  rcases so with _ | vo <;> rcases se with _ | ve <;> rcases st with _ | vs <;>
    simp [Assertion.unsafe_assert_cmd, Assertion.assert_stdout_stderr_status_against_null,
      AssertionResult.new, AssertionResult.set_execution_status,
      AssertionResult.set_stdout_diagnostics, AssertionResult.set_stderr_diagnostics,
      AssertionResult.set_status_diagnostics, AssertionResult.score,
      AssertionResult.max_score]

/-- C6: an assertion expecting a non-zero exit status, run against a process
that completes and exits successfully with status 0, yields execution status
`Success`, is not passed, and records the status diagnostic
`(expected, Some(0))`. -/
theorem C6_success_with_nonzero_expected_status (a : Assertion) (nst : Int)
    (hst : a.status = some nst) (hn : nst ≠ 0) (pout perr : String) :
    (a.unsafe_assert_cmd (.completed ⟨.exited 0, pout, perr⟩)).execution_status =
        .Success ∧
      (a.unsafe_assert_cmd (.completed ⟨.exited 0, pout, perr⟩)).passed = false ∧
      (a.unsafe_assert_cmd (.completed ⟨.exited 0, pout, perr⟩)).status_diagnostics =
        some ⟨nst, some 0⟩ := by
  obtain ⟨n, args, sdin, so, se, st, w⟩ := a
  simp only at hst
  subst hst
  rcases so with _ | vo <;> rcases se with _ | ve <;>
    simp [Assertion.unsafe_assert_cmd, Assertion.check_status, Assertion.check_stdout,
      Assertion.check_stderr, AssertionResult.new, AssertionResult.set_execution_status,
      AssertionResult.set_stdout_diagnostics, AssertionResult.set_stderr_diagnostics,
      AssertionResult.set_status_diagnostics, AssertionResult.set_passed, hn] <;>
    split <;> simp_all <;> split <;> simp_all

/-- Witness for C6: an assertion expecting status 2 against a process that
exited 0. -/
theorem C6_success_with_nonzero_expected_status_witness :
    ((Assertion.mk "a" [] none none none (some 2) 1).unsafe_assert_cmd
          (.completed ⟨.exited 0, "", ""⟩)).execution_status = .Success ∧
      ((Assertion.mk "a" [] none none none (some 2) 1).unsafe_assert_cmd
          (.completed ⟨.exited 0, "", ""⟩)).passed = false ∧
      ((Assertion.mk "a" [] none none none (some 2) 1).unsafe_assert_cmd
          (.completed ⟨.exited 0, "", ""⟩)).status_diagnostics =
        some ⟨2, some 0⟩ :=
  C6_success_with_nonzero_expected_status
    (Assertion.mk "a" [] none none none (some 2) 1) 2 rfl (by decide) "" ""

/-- Witness for C10 at `Weighted{1,2}`, `Weighted{3,4}`, `Weighted{5,6}`. -/
theorem C10_combine_assoc_comm_same_mode_witness :
    ((Score.combine (.weighted 1 2) (.weighted 3 4)).bind fun x =>
          Score.combine x (.weighted 5 6)) =
        ((Score.combine (.weighted 3 4) (.weighted 5 6)).bind fun y =>
          Score.combine (.weighted 1 2) y) ∧
      Score.combine (.weighted 1 2) (.weighted 3 4) =
        Score.combine (.weighted 3 4) (.weighted 1 2) :=
  C10_combine_assoc_comm_same_mode (.weighted 1 2) (.weighted 3 4)
    (.weighted 5 6) rfl rfl

/-- Folding assertion results into a unit-test result whose running score is
`Absolute(false)` leaves the score at `Absolute(false)`. -/
theorem add_assertion_results_absolute_false (l : List AssertionResult)
    (r : UnitTestResult) (hr : r.score = .absolute false) :
    (r.add_assertion_results l).score = .absolute false := by
  induction l generalizing r with
  | nil => simpa [UnitTestResult.add_assertion_results] using hr
  | cons x xs ih =>
      simp only [UnitTestResult.add_assertion_results, List.foldl_cons] at *
      exact ih _ (by simp [UnitTestResult.add_assertion_result, hr])

/-- Combining any list of Absolute-tagged scores into `Absolute(false)`
succeeds and stays at `Absolute(false)`. -/
theorem Score.combineAll_absolute_false (l : List Score)
    (h : ∀ s ∈ l, s.isAbsolute = true) :
    Score.combineAll (.absolute false) l = some (.absolute false) := by
  induction l with
  | nil => rfl
  | cons s ss ih =>
      obtain ⟨b, hb⟩ : ∃ b, s = .absolute b := by
        have hs := h s (by simp)
        cases s <;> simp_all [Score.isAbsolute]
      subst hb
      simp only [Score.combineAll, List.foldlM_cons, Score.combine, Bool.false_and]
      exact ih fun t ht => h t (by simp [ht])

/-- The score of a `UnitTestsResult` after folding unit-test results is the
ordered combination of their scores into the starting score. -/
theorem UnitTestsResult.add_results_score (r : UnitTestsResult)
    (l : List UnitTestResult) :
    (r.add_results l).map UnitTestsResult.score =
      Score.combineAll r.score (l.map UnitTestResult.score) := by
  induction l generalizing r with
  | nil => rfl
  | cons u us ih =>
      simp only [UnitTestsResult.add_results, List.foldlM_cons, Score.combineAll,
        List.map_cons]
      cases hc : r.score.combine u.score with
      | none => simp [UnitTestsResult.add_result, hc]
      | some sc =>
          simp only [UnitTestsResult.add_result, hc, Option.map_some]
          have := ih ⟨sc, r.assertions_per_executable_results ++ [u]⟩
          simpa [UnitTestsResult.add_results, Score.combineAll] using this

/-- The score of a `GradingResult` after folding section results is the
ordered combination of the section scores into the starting score. -/
theorem GradingResult.add_section_results_score (g : GradingResult)
    (l : List GradingSectionResult) :
    (g.add_section_results l).map GradingResult.score =
      Score.combineAll g.score (l.map GradingSectionResult.score) := by
  induction l generalizing g with
  | nil => rfl
  | cons s ss ih =>
      simp only [GradingResult.add_section_results, List.foldlM_cons, Score.combineAll,
        List.map_cons]
      cases hc : g.score.combine s.score with
      | none => simp [GradingResult.add_section_result, hc]
      | some sc =>
          simp only [GradingResult.add_section_result, hc, Option.map_some]
          have := ih ⟨g.name, g.author, sc, g.grading_section_results ++ [s]⟩
          simpa [GradingResult.add_section_results, Score.combineAll] using this

/-- An assertion result's score never exceeds its max score, listwise. -/
theorem sum_score_le_sum_max_score (l : List AssertionResult) :
    (l.map AssertionResult.score).sum ≤ (l.map AssertionResult.max_score).sum := by
  induction l with
  | nil => simp
  | cons x xs ih =>
      simp only [List.map_cons, List.sum_cons]
      have hx : x.score ≤ x.max_score := by
        simp only [AssertionResult.score, AssertionResult.max_score]
        split <;> omega
      omega

/-- The sum of assertion-result scores is the sum of the weights of the
passed ones. -/
theorem sum_score_eq_sum_passed_weights (l : List AssertionResult) :
    (l.map AssertionResult.score).sum =
      ((l.filter (·.passed)).map AssertionResult.weight).sum := by
  induction l with
  | nil => rfl
  | cons x xs ih =>
      by_cases hx : x.passed <;>
        simp [List.filter_cons, hx, AssertionResult.score, ih]

/-- The sum of max scores is the sum of the weights. -/
theorem sum_max_score_eq_sum_weights (l : List AssertionResult) :
    (l.map AssertionResult.max_score).sum = (l.map AssertionResult.weight).sum := by
  induction l with
  | nil => rfl
  | cons x xs ih => simp [AssertionResult.max_score, ih]

/-- Weighted-mode fold of assertion results: starting from `Weighted{c, m}`
and absent overflow, the components accumulate the score and max-score sums. -/
theorem add_assertion_results_weighted (l : List AssertionResult)
    (c m : Nat) (r : UnitTestResult) (hr : r.score = .weighted c m)
    (hc : c + (l.map AssertionResult.score).sum < U32MOD)
    (hm : m + (l.map AssertionResult.max_score).sum < U32MOD) :
    (r.add_assertion_results l).score =
      .weighted (c + (l.map AssertionResult.score).sum)
        (m + (l.map AssertionResult.max_score).sum) := by
  induction l generalizing c m r with
  | nil => simpa [UnitTestResult.add_assertion_results] using hr
  | cons x xs ih =>
      simp only [List.map_cons, List.sum_cons] at hc hm ⊢
      simp only [UnitTestResult.add_assertion_results, List.foldl_cons] at ih ⊢
      have hstep : (r.add_assertion_result x).score =
          .weighted (c + x.score) (m + x.max_score) := by
        simp [UnitTestResult.add_assertion_result, hr,
          Nat.mod_eq_of_lt (show c + x.score < U32MOD by omega),
          Nat.mod_eq_of_lt (show m + x.max_score < U32MOD by omega)]
      have := ih (c + x.score) (m + x.max_score) (r.add_assertion_result x) hstep
        (by omega) (by omega)
      rw [this]
      congr 1 <;> omega

/-- C1: in Absolute grading mode every aggregate score is constantly
`Absolute(false)`: whatever assertion results a unit test folds (including all
passed), whatever Absolute-tagged unit-test scores a `UnitTestsResult` folds,
and whatever Absolute-tagged section scores a `GradingResult` folds, the
aggregate score at each level is `Absolute(false)`, because each level starts
from `Score::default(Absolute) = Absolute(false)` and folds with logical AND. -/
theorem C1_absolute_mode_aggregates_constantly_false (n e : String)
    (l : List AssertionResult)
    (uts : List UnitTestResult) (huts : ∀ u ∈ uts, u.score.isAbsolute = true)
    (gn ga : String) (secs : List GradingSectionResult)
    (hsecs : ∀ s ∈ secs, s.score.isAbsolute = true) :
    ((UnitTestResult.new n e .Absolute).add_assertion_results l).score =
        .absolute false ∧
      ((UnitTestsResult.new .Absolute).add_results uts).map UnitTestsResult.score =
        some (.absolute false) ∧
      ((GradingResult.new gn ga .Absolute).add_section_results secs).map
          GradingResult.score = some (.absolute false) := by
  refine ⟨add_assertion_results_absolute_false l _ rfl, ?_, ?_⟩
  · rw [UnitTestsResult.add_results_score]
    have h0 : (UnitTestsResult.new .Absolute).score = .absolute false := rfl
    rw [h0]
    exact Score.combineAll_absolute_false _ fun s hs => by
      obtain ⟨u, hu, rfl⟩ := List.mem_map.mp hs
      exact huts u hu
  · rw [GradingResult.add_section_results_score]
    have h0 : (GradingResult.new gn ga .Absolute).score = .absolute false := rfl
    rw [h0]
    exact Score.combineAll_absolute_false _ fun s hs => by
      obtain ⟨u, hu, rfl⟩ := List.mem_map.mp hs
      exact hsecs u hu

/-- Witness for C1: a passed assertion result, a unit-test result scored
`Absolute(true)` and a section scored `Absolute(true)` each still aggregate to
`Absolute(false)`. -/
theorem C1_absolute_mode_aggregates_constantly_false_witness :
    ((UnitTestResult.new "t" "cat" .Absolute).add_assertion_results
        [⟨.Success, "a1", true, 1, none, none, none⟩]).score = .absolute false ∧
      ((UnitTestsResult.new .Absolute).add_results
          [⟨"u", "cat", .absolute true, []⟩]).map UnitTestsResult.score =
        some (.absolute false) ∧
      ((GradingResult.new "g" "auth" .Absolute).add_section_results
          [⟨"s", .absolute true, none⟩]).map GradingResult.score =
        some (.absolute false) :=
  C1_absolute_mode_aggregates_constantly_false "t" "cat"
    [⟨.Success, "a1", true, 1, none, none, none⟩]
    [⟨"u", "cat", .absolute true, []⟩] (by decide) "g" "auth"
    [⟨"s", .absolute true, none⟩] (by decide)

/-- C7: an assertion result scores its weight if passed, else 0, with max
score its weight; and a Weighted-mode unit-test result, after folding an
ordered sequence of assertion results whose total weight does not overflow
u32, scores `Weighted{sum of the weights of the passed assertions, sum of all
weights}`. -/
theorem C7_assertion_score_and_weighted_fold (r : AssertionResult)
    (n e : String) (l : List AssertionResult)
    (h : (l.map AssertionResult.weight).sum < U32MOD) :
    r.score = (if r.passed then r.weight else 0) ∧
      r.max_score = r.weight ∧
      ((UnitTestResult.new n e .Weighted).add_assertion_results l).score =
        .weighted (((l.filter (·.passed)).map AssertionResult.weight).sum)
          ((l.map AssertionResult.weight).sum) := by
  refine ⟨rfl, rfl, ?_⟩
  have hm : (l.map AssertionResult.max_score).sum < U32MOD := by
    rw [sum_max_score_eq_sum_weights]; exact h
  have hc : (l.map AssertionResult.score).sum < U32MOD :=
    lt_of_le_of_lt (sum_score_le_sum_max_score l) hm
  have hfold := add_assertion_results_weighted l 0 0
    (UnitTestResult.new n e .Weighted) rfl (by omega) (by omega)
  rw [hfold]
  rw [Nat.zero_add, Nat.zero_add, sum_score_eq_sum_passed_weights,
    sum_max_score_eq_sum_weights]

/-- Witness for C7, Scenario C: two passing assertion results of weights 2 and
13 fold to `Weighted{15, 15}`. -/
theorem C7_assertion_score_and_weighted_fold_witness :
    ((UnitTestResult.new "t" "cat" .Weighted).add_assertion_results
        [⟨.Success, "a1", true, 2, none, none, none⟩,
         ⟨.Success, "a2", true, 13, none, none, none⟩]).score =
      .weighted 15 15 := by
  have h := C7_assertion_score_and_weighted_fold
    ⟨.Success, "a1", true, 2, none, none, none⟩ "t" "cat"
    [⟨.Success, "a1", true, 2, none, none, none⟩,
     ⟨.Success, "a2", true, 13, none, none, none⟩] (by decide)
  exact h.2.2.trans (by decide)

/-- C8: the section score is the tests' aggregate score scaled (not combined)
by the section weight — `scale(Weighted{c,m}, w) = Weighted{c*w, m*w}` absent
overflow, `scale(Absolute(b), w) = Absolute(b)` for any w — and the overall
grading score is the ordered combination (not scaling) of the already-weighted
section scores. -/
theorem C8_section_scale_overall_combine (c m w : Nat)
    (hc : c * w < U32MOD) (hm : m * w < U32MOD) (b : Bool)
    (sr : GradingSectionResult) (ts : UnitTestsResult)
    (g : GradingResult) (l : List GradingSectionResult) :
    Score.scale (.weighted c m) w = .weighted (c * w) (m * w) ∧
      Score.scale (.absolute b) w = .absolute b ∧
      (sr.set_test_results ts w).score = ts.score.scale w ∧
      ((g.add_section_results l).map GradingResult.score) =
        Score.combineAll g.score (l.map GradingSectionResult.score) := by
  refine ⟨?_, rfl, rfl, GradingResult.add_section_results_score g l⟩
  simp [Score.scale, Nat.mod_eq_of_lt hc, Nat.mod_eq_of_lt hm]

/-- Witness for C8, Scenario E: weight 50 on tests scoring `Weighted{5, 10}`
gives a section score of `Weighted{250, 500}`. -/
theorem C8_section_scale_overall_combine_witness :
    Score.scale (.weighted 5 10) 50 = .weighted (5 * 50) (10 * 50) ∧
      Score.scale (.absolute true) 50 = .absolute true ∧
      ((⟨"s", .weighted 0 0, none⟩ : GradingSectionResult).set_test_results
          ⟨.weighted 5 10, []⟩ 50).score =
        (Score.weighted 5 10).scale 50 ∧
      (((GradingResult.new "g" "auth" .Weighted).add_section_results
            [⟨"s", .weighted 250 500, none⟩]).map GradingResult.score) =
        Score.combineAll (GradingResult.new "g" "auth" .Weighted).score
          ([⟨"s", .weighted 250 500, none⟩].map GradingSectionResult.score) :=
  C8_section_scale_overall_combine 5 10 50 (by decide) (by decide) true
    ⟨"s", .weighted 0 0, none⟩ ⟨.weighted 5 10, []⟩
    (GradingResult.new "g" "auth" .Weighted) [⟨"s", .weighted 250 500, none⟩]

end CliGrader
